import Mathlib

/-!
Shallow embedding of `src/cli/kodeventure-cli.py` (Kodeworks/kodeventure-server).

The script is an administrative CLI: it parses one positional command name,
maps it through the `cmds` dictionary to one of seven actions, and each
action performs a single HTTP request and renders the outcome.

Modelling choices:
* Side effects (the HTTP request, `print` calls, file writes, the interactive
  `input` prompt) are recorded as an ordered list of `Effect` values.
* The server's answer is an `Response` value: its HTTP status code, its raw
  body text (`response.text`), and the decoded JSON body (`response.json()`);
  claims about responses all presuppose a body that decodes, so the decoded
  value is carried directly.
* `random.choice(string.ascii_letters)` is modelled by a draw stream
  `rand : Nat → Fin 52` indexing into `ascii_letters`; the player token
  consumes draws 0..3 and the server token draws 4..7, in program order.
* Python `'k' in data` / `data['k']` are modelled for JSON-object bodies via
  `getKey` (every claim about these constructs concerns object bodies);
  a missing key is a `KeyError`, surfaced in `Outcome.exc`.
* Python `for player in data` is modelled by `pyIterate` (lists iterate their
  elements, dicts their keys, strings their characters; other values raise).
* `os.path.dirname(__file__)` is the directory holding the script; `scriptDir`
  fixes it to the script's repository location.
-/

namespace KodeCLI

/-- Decoded JSON values crossing the wire. -/
inductive Json where
  | null
  | bool (b : Bool)
  | num (n : Int)
  | str (s : String)
  | arr (xs : List Json)
  | obj (fields : List (String × Json))

/-- HTTP method of a request issued by the client. -/
inductive Method where
  | GET
  | POST
deriving DecidableEq

/-- One observable side effect of a command invocation, in program order. -/
inductive Effect where
  | request (method : Method) (url : String) (headers : List (String × String))
      (bodyJson : Option Json)
  | print (args : List Json)
  | write (path : String) (content : Json)
  | input (prompt : String)

/-- `SERVER = 'https://localhost:3001'` -/
def SERVER : String := "https://localhost:3001"

/-- `TOKEN = 'dungeon-master-key'` -/
def TOKEN : String := "dungeon-master-key"

/-- The `HEADERS` dictionary sent on authenticated calls. -/
def HEADERS : List (String × String) :=
  [("Authorization", TOKEN), ("Content-Type", "application/json")]

/-- `string.ascii_letters`: the 26 lowercase then 26 uppercase ASCII letters. -/
def ascii_letters : List Char :=
  "abcdefghijklmnopqrstuvwxyzABCDEFGHIJKLMNOPQRSTUVWXYZ".data

/-- `random.choice(string.ascii_letters)` given the draw `r`. -/
def randomChoice (r : Fin 52) : Char :=
  ascii_letters.getD r.val 'a'

/-- `''.join(random.choice(string.ascii_letters) for i in range(4))`, consuming
the four draws `rand start`, ..., `rand (start+3)` of the draw stream. -/
def genToken (rand : Nat → Fin 52) (start : Nat) : String :=
  String.mk ((List.range 4).map fun i => randomChoice (rand (start + i)))

/-- Python dict lookup `data[k]` on a JSON object (first matching key);
`none` both for a missing key (`KeyError`) and for non-object values. -/
def getKey : Json → String → Option Json
  | .obj fields, k => (fields.find? fun p => p.1 = k).map Prod.snd
  | _, _ => none

/-- Python iteration `for x in data`: lists yield their elements, dicts their
keys, strings their one-character substrings; other values raise `TypeError`. -/
def pyIterate : Json → Option (List Json)
  | .arr xs => some xs
  | .obj fields => some (fields.map fun p => Json.str p.1)
  | .str s => some (s.data.map fun ch => Json.str (String.mk [ch]))
  | _ => none

/-- The result of one command invocation: the effects it performed, and the
uncaught exception (if any) that aborted it. -/
structure Outcome where
  effects : List Effect
  exc : Option String

/-- The server's answer to the single request: HTTP status code, raw body
text, and the decoded JSON body. -/
structure Response where
  status : Nat
  text : String
  json : Json

/-- `def adduser()`: prompt for a name, generate the two tokens, POST the
player object to `/user` with auth headers, then report the outcome. -/
def adduser (rand : Nat → Fin 52) (nameInput : String) (resp : Response) : Outcome :=
  let player_token := genToken rand 0
  let server_token := genToken rand 4
  let payload : Json := .obj [
    ("token", .str player_token),
    ("server_token", .str server_token),
    ("name", .str nameInput),
    ("score", .num 0),
    ("titles", .arr []),
    ("loot", .arr [])]
  let pre : List Effect :=
    [.input "Player name: ",
     .request .POST (SERVER ++ "/user") HEADERS (some payload)]
  if resp.status = 200 then
    match getKey resp.json "errors" with
    | some e => ⟨pre ++ [.print [.str "ERROR:", e]], none⟩
    | none =>
        ⟨pre ++ [.print [.str "Player token:", .str player_token],
                 .print [.str "Server token:", .str server_token]], none⟩
  else
    ⟨pre ++ [.print [.str "ERROR:", .str resp.text]], none⟩

/-- `def listusers()`: GET `/users` with auth headers; on 200 print each
element of the body, one `print` per element; otherwise print the raw body. -/
def listusers (resp : Response) : Outcome :=
  let pre : List Effect := [.request .GET (SERVER ++ "/users") HEADERS none]
  if resp.status = 200 then
    match pyIterate resp.json with
    | some players => ⟨pre ++ players.map fun p => .print [p], none⟩
    | none => ⟨pre, some "TypeError: object is not iterable"⟩
  else
    ⟨pre ++ [.print [.str "ERROR:", .str resp.text]], none⟩

/-- Directory of the script file (`os.path.dirname(__file__)`). -/
def scriptDir : String := "src/cli"

/-- `os.path.join(os.path.dirname(__file__), '..', filename)`. -/
def parent_dir (filename : String) : String :=
  scriptDir ++ "/../" ++ filename

/-- `def cert()`: POST `/cert` with NO headers; on 200 extract the three
fields `private`, `public`, `cert` (each lookup may raise `KeyError`, all
three happen before the first file is opened), then write the three files
with a confirmation print after each; otherwise print the raw body. -/
def cert (resp : Response) : Outcome :=
  let pre : List Effect := [.request .POST (SERVER ++ "/cert") [] none]
  if resp.status = 200 then
    match getKey resp.json "private" with
    | none => ⟨pre, some "KeyError: private"⟩
    | some private_key =>
      match getKey resp.json "public" with
      | none => ⟨pre, some "KeyError: public"⟩
      | some public_key =>
        match getKey resp.json "cert" with
        | none => ⟨pre, some "KeyError: cert"⟩
        | some certificate =>
            ⟨pre ++ [.write (parent_dir "server.key") private_key,
                     .print [.str "Wrote server.key"],
                     .write (parent_dir "server.pub") public_key,
                     .print [.str "Wrote server.pub"],
                     .write (parent_dir "server.crt") certificate,
                     .print [.str "Wrote server.crt"]], none⟩
  else
    ⟨pre ++ [.print [.str "ERROR:", .str resp.text]], none⟩

/-- `def start()`: POST `/game/start` with auth headers. -/
def start (resp : Response) : Outcome :=
  ⟨[.request .POST (SERVER ++ "/game/start") HEADERS none] ++
    (if resp.status = 200 then [Effect.print [.str "Game started!"]]
     else [Effect.print [.str "ERROR:", .str resp.text]]), none⟩

/-- `def pause()`: POST `/game/pause` with auth headers. -/
def pause (resp : Response) : Outcome :=
  ⟨[.request .POST (SERVER ++ "/game/pause") HEADERS none] ++
    (if resp.status = 200 then [Effect.print [.str "Game paused!"]]
     else [Effect.print [.str "ERROR:", .str resp.text]]), none⟩

/-- `def unpause()`: POST `/game/unpause` with auth headers. -/
def unpause (resp : Response) : Outcome :=
  ⟨[.request .POST (SERVER ++ "/game/unpause") HEADERS none] ++
    (if resp.status = 200 then [Effect.print [.str "Game unpaused!"]]
     else [Effect.print [.str "ERROR:", .str resp.text]]), none⟩

/-- `def stop()`: POST `/game/stop` with auth headers. -/
def stop (resp : Response) : Outcome :=
  ⟨[.request .POST (SERVER ++ "/game/stop") HEADERS none] ++
    (if resp.status = 200 then [Effect.print [.str "Game ended!"]]
     else [Effect.print [.str "ERROR:", .str resp.text]]), none⟩

/-- The seven recognized commands. -/
inductive Cmd where
  | adduser
  | listusers
  | cert
  | start
  | pause
  | unpause
  | stop
deriving DecidableEq

/-- The `cmds` dictionary: command name to action. -/
def cmds : List (String × Cmd) :=
  [("adduser", .adduser),
   ("listusers", .listusers),
   ("cert", .cert),
   ("start", .start),
   ("pause", .pause),
   ("unpause", .unpause),
   ("stop", .stop)]

/-- The ambient inputs of one invocation: the random draw stream, the line
read from standard input, and the server's answer to the single request. -/
structure Env where
  rand : Nat → Fin 52
  nameInput : String
  resp : Response

/-- `cmds[args.cmd]()`: dispatch the selected command. -/
def runCmd : Cmd → Env → Outcome
  | .adduser, env => adduser env.rand env.nameInput env.resp
  | .listusers, env => listusers env.resp
  | .cert, env => cert env.resp
  | .start, env => start env.resp
  | .pause, env => pause env.resp
  | .unpause, env => unpause env.resp
  | .stop, env => stop env.resp

/-- `argparse` with `choices=cmds`: an argument that is a key of `cmds`
selects its command; any other argument makes `parse_args` exit with
status 2 before dispatch. -/
def parseArgs (arg : String) : Except Nat Cmd :=
  match cmds.find? fun p => p.1 = arg with
  | some p => .ok p.2
  | none => .error 2

/-- The `__main__` block: parse the single positional argument, then run the
selected command; an unrecognized argument exits (code 2) with no effects.
The exit status of a completed command is 0 (the script never sets one). -/
def main (arg : String) (env : Env) : Nat × Outcome :=
  match parseArgs arg with
  | .ok c => (0, runCmd c env)
  | .error code => (code, ⟨[], none⟩)

/-- Project each request effect to (method, url, Authorization present). -/
def requestLines (es : List Effect) : List (Method × String × Bool) :=
  es.filterMap fun e =>
    match e with
    | .request m url hs _ => some (m, url, hs.any fun p => p.1 = "Authorization")
    | _ => none

/-- The arguments of each `print` call, in order. -/
def printsOf (es : List Effect) : List (List Json) :=
  es.filterMap fun e =>
    match e with
    | .print args => some args
    | _ => none

/-- The (path, content) of each file write, in order. -/
def writesOf (es : List Effect) : List (String × Json) :=
  es.filterMap fun e =>
    match e with
    | .write path content => some (path, content)
    | _ => none

/-- The request effects themselves, in order. -/
def requestsOf (es : List Effect) : List Effect :=
  es.filter fun e =>
    match e with
    | .request .. => true
    | _ => false

/-- File-system semantics of an effect: a write truncates/overwrites the file
at its path with its content; other effects leave the file system unchanged. -/
def applyEffect (fs : String → Option Json) : Effect → (String → Option Json)
  | .write path content => fun q => if q = path then some content else fs q
  | _ => fs

/-- File-system state after running a list of effects in order. -/
def applyEffects (es : List Effect) (fs : String → Option Json) : String → Option Json :=
  es.foldl applyEffect fs

/-- C1: every recognized command performs exactly one HTTP request, whose
method, path, and presence of the Authorization header match the wire-contract
table: POST /user with auth, GET /users with auth, POST /cert without auth,
and POST to the four pairwise-distinct paths /game/start, /game/pause,
/game/unpause, /game/stop with auth. -/
theorem dispatch_wire_contract (env : Env) :
    requestLines (runCmd .adduser env).effects = [(.POST, SERVER ++ "/user", true)] ∧
    requestLines (runCmd .listusers env).effects = [(.GET, SERVER ++ "/users", true)] ∧
    requestLines (runCmd .cert env).effects = [(.POST, SERVER ++ "/cert", false)] ∧
    requestLines (runCmd .start env).effects = [(.POST, SERVER ++ "/game/start", true)] ∧
    requestLines (runCmd .pause env).effects = [(.POST, SERVER ++ "/game/pause", true)] ∧
    requestLines (runCmd .unpause env).effects = [(.POST, SERVER ++ "/game/unpause", true)] ∧
    requestLines (runCmd .stop env).effects = [(.POST, SERVER ++ "/game/stop", true)] ∧
    List.Pairwise (fun a b => a ≠ b)
      [SERVER ++ "/game/start", SERVER ++ "/game/pause",
       SERVER ++ "/game/unpause", SERVER ++ "/game/stop"] := by
  refine ⟨?_, ?_, ?_, ?_, ?_, ?_, ?_, ?_⟩
  · simp only [runCmd, adduser]
    split
    · split <;> simp [requestLines, HEADERS, TOKEN]
    · simp [requestLines, HEADERS, TOKEN]
  · simp only [runCmd, listusers]
    split
    · split <;> simp [requestLines, HEADERS, TOKEN, List.filterMap_map]
    · simp [requestLines, HEADERS, TOKEN]
  · simp only [runCmd, cert]
    split
    · split
      all_goals try split
      all_goals try split
      all_goals simp [requestLines]
    · simp [requestLines]
  · simp only [runCmd, start]
    split <;> simp [requestLines, HEADERS, TOKEN]
  · simp only [runCmd, pause]
    split <;> simp [requestLines, HEADERS, TOKEN]
  · simp only [runCmd, unpause]
    split <;> simp [requestLines, HEADERS, TOKEN]
  · simp only [runCmd, stop]
    split <;> simp [requestLines, HEADERS, TOKEN]
  · decide

/-- C2: for every command, a response with HTTP status other than 200 makes
the command print exactly one line, the error print carrying the raw response
body; no success message is printed, no file is written, and exactly one
request (and no other) is sent. -/
theorem non200_surfaces_body (c : Cmd) (env : Env) (h : env.resp.status ≠ 200) :
    printsOf (runCmd c env).effects = [[.str "ERROR:", .str env.resp.text]] ∧
    writesOf (runCmd c env).effects = [] ∧
    (requestLines (runCmd c env).effects).length = 1 ∧
    (runCmd c env).exc = none := by
  cases c <;>
    simp only [runCmd, adduser, listusers, cert, start, pause, unpause, stop] <;>
    rw [if_neg h] <;>
    simp [printsOf, writesOf, requestLines, HEADERS, TOKEN]

/-- C2 witness: `stop` against a status-500 response with body "server busy"
prints exactly the error line carrying "server busy" and sends one request. -/
theorem non200_surfaces_body_witness :
    printsOf (runCmd .stop ⟨fun _ => (0 : Fin 52), "", ⟨500, "server busy", .null⟩⟩).effects =
      [[.str "ERROR:", .str "server busy"]] ∧
    writesOf (runCmd .stop ⟨fun _ => (0 : Fin 52), "", ⟨500, "server busy", .null⟩⟩).effects = [] ∧
    (requestLines (runCmd .stop ⟨fun _ => (0 : Fin 52), "", ⟨500, "server busy", .null⟩⟩).effects).length = 1 ∧
    (runCmd .stop ⟨fun _ => (0 : Fin 52), "", ⟨500, "server busy", .null⟩⟩).exc = none :=
  non200_surfaces_body .stop ⟨fun _ => (0 : Fin 52), "", ⟨500, "server busy", .null⟩⟩ (by decide)

/-- C3: on a 200 response to `adduser`, if the decoded body has an `errors`
key its value is printed as the only (error) line and the token success
messages are not printed; the token messages are printed exactly when the
`errors` key is absent. -/
theorem adduser_errors_field (env : Env) (h : env.resp.status = 200) :
    (∀ e, getKey env.resp.json "errors" = some e →
      printsOf (runCmd .adduser env).effects = [[.str "ERROR:", e]]) ∧
    (getKey env.resp.json "errors" = none →
      printsOf (runCmd .adduser env).effects =
        [[.str "Player token:", .str (genToken env.rand 0)],
         [.str "Server token:", .str (genToken env.rand 4)]]) := by
  constructor
  · intro e he
    simp only [runCmd, adduser]
    rw [if_pos h, he]
    simp [printsOf]
  · intro he
    simp only [runCmd, adduser]
    rw [if_pos h, he]
    simp [printsOf]

/-- C3 witness: a 200 body `{"errors": "name taken"}` yields only the error
line; a 200 body `{}` yields the two token lines. -/
theorem adduser_errors_field_witness :
    printsOf (runCmd .adduser
      ⟨fun _ => (0 : Fin 52), "Ada", ⟨200, "", .obj [("errors", .str "name taken")]⟩⟩).effects =
      [[.str "ERROR:", .str "name taken"]] ∧
    printsOf (runCmd .adduser
      ⟨fun _ => (0 : Fin 52), "Ada", ⟨200, "", .obj []⟩⟩).effects =
      [[.str "Player token:", .str "aaaa"], [.str "Server token:", .str "aaaa"]] :=
  ⟨(adduser_errors_field
      ⟨fun _ => (0 : Fin 52), "Ada", ⟨200, "", .obj [("errors", .str "name taken")]⟩⟩ rfl).1
      (.str "name taken") rfl,
   (adduser_errors_field
      ⟨fun _ => (0 : Fin 52), "Ada", ⟨200, "", .obj []⟩⟩ rfl).2 rfl⟩

/-- Every `random.choice` draw lands in `string.ascii_letters`. -/
theorem randomChoice_mem (r : Fin 52) : randomChoice r ∈ ascii_letters := by
  revert r
  decide

/-- C4: both generated tokens have exactly 4 characters, every character is
drawn from `ascii_letters` — which has exactly 52 distinct characters, each
an uppercase or lowercase ASCII letter; the player token depends only on
draws 0..3 and the server token only on draws 4..7 (independent draws), and
no constraint forces the two tokens to differ (a draw stream making them
equal exists). -/
theorem adduser_token_generation (rand : Nat → Fin 52) :
    (genToken rand 0).length = 4 ∧
    (genToken rand 4).length = 4 ∧
    (∀ c ∈ (genToken rand 0).data, c ∈ ascii_letters) ∧
    (∀ c ∈ (genToken rand 4).data, c ∈ ascii_letters) ∧
    ascii_letters.length = 52 ∧
    (∀ c ∈ ascii_letters, ('a' ≤ c ∧ c ≤ 'z') ∨ ('A' ≤ c ∧ c ≤ 'Z')) ∧
    ascii_letters.Nodup ∧
    (∀ rand2 : Nat → Fin 52, (∀ i, i < 4 → rand i = rand2 i) →
      genToken rand 0 = genToken rand2 0) ∧
    (∀ rand2 : Nat → Fin 52, (∀ i, 4 ≤ i → i < 8 → rand i = rand2 i) →
      genToken rand 4 = genToken rand2 4) ∧
    (∃ r : Nat → Fin 52, genToken r 0 = genToken r 4) := by
  refine ⟨by simp [genToken], by simp [genToken], ?_, ?_, by decide, by decide, by decide,
    ?_, ?_, ⟨fun _ => 0, rfl⟩⟩
  · simp only [genToken, String.data]
    intro c hc
    simp only [List.mem_map, List.mem_range] at hc
    obtain ⟨i, _, hi⟩ := hc
    exact hi ▸ randomChoice_mem _
  · simp only [genToken, String.data]
    intro c hc
    simp only [List.mem_map, List.mem_range] at hc
    obtain ⟨i, _, hi⟩ := hc
    exact hi ▸ randomChoice_mem _
  · intro rand2 hr
    simp only [genToken]
    refine congrArg String.mk (List.map_congr_left ?_)
    intro i hi
    rw [hr (0 + i) (by simpa using List.mem_range.mp hi)]
  · intro rand2 hr
    simp only [genToken]
    refine congrArg String.mk (List.map_congr_left ?_)
    intro i hi
    have h4 := List.mem_range.mp hi
    rw [hr (4 + i) (by omega) (by omega)]

/-- C4 witness: at the constant draw stream both tokens are the 4-letter
string "aaaa", and a stream making the two tokens equal exists. -/
theorem adduser_token_generation_witness :
    (genToken (fun _ => (0 : Fin 52)) 0).length = 4 ∧
    (∃ r : Nat → Fin 52, genToken r 0 = genToken r 4) :=
  ⟨(adduser_token_generation (fun _ => (0 : Fin 52))).1,
   (adduser_token_generation (fun _ => (0 : Fin 52))).2.2.2.2.2.2.2.2.2⟩

/-- `printsOf` of a pure block of per-element prints is the element list. -/
lemma printsOf_map_print (xs : List Json) :
    printsOf (xs.map fun p => Effect.print [p]) = xs.map fun p => [p] := by
  induction xs with
  | nil => rfl
  | cons a as ih =>
      simp only [List.map_cons]
      simp only [printsOf, List.filterMap_cons] at ih ⊢
      exact congrArg (List.cons [a]) ih

/-- A block of per-element prints contains no request. -/
lemma requestLines_map_print (xs : List Json) :
    requestLines (xs.map fun p => Effect.print [p]) = [] := by
  induction xs with
  | nil => rfl
  | cons a as ih =>
      simp only [List.map_cons]
      simp only [requestLines, List.filterMap_cons] at ih ⊢
      exact ih

/-- C5: on a 200 response to `cert` carrying the three certificate fields,
the command writes exactly the three files server.key, server.pub, server.crt
(in that order, with one confirmation print per file), each file content
being exactly the corresponding response field; running the effects on any
starting file system overwrites whatever was at those three paths with the
new contents and leaves every other path unchanged. -/
theorem cert_writes_three_files (env : Env) (h : env.resp.status = 200)
    (p q r : Json)
    (hp : getKey env.resp.json "private" = some p)
    (hq : getKey env.resp.json "public" = some q)
    (hr : getKey env.resp.json "cert" = some r) :
    writesOf (runCmd .cert env).effects =
      [(parent_dir "server.key", p), (parent_dir "server.pub", q),
       (parent_dir "server.crt", r)] ∧
    printsOf (runCmd .cert env).effects =
      [[.str "Wrote server.key"], [.str "Wrote server.pub"], [.str "Wrote server.crt"]] ∧
    (runCmd .cert env).exc = none ∧
    (∀ fs : String → Option Json,
      applyEffects (runCmd .cert env).effects fs (parent_dir "server.key") = some p ∧
      applyEffects (runCmd .cert env).effects fs (parent_dir "server.pub") = some q ∧
      applyEffects (runCmd .cert env).effects fs (parent_dir "server.crt") = some r ∧
      (∀ path, path ≠ parent_dir "server.key" → path ≠ parent_dir "server.pub" →
        path ≠ parent_dir "server.crt" →
        applyEffects (runCmd .cert env).effects fs path = fs path)) := by
  simp only [runCmd, cert]
  rw [if_pos h, hp, hq, hr]
  refine ⟨by simp [writesOf], by simp [printsOf], rfl, ?_⟩
  intro fs
  simp only [List.cons_append, List.nil_append, applyEffects, List.foldl_cons, List.foldl_nil,
    applyEffect]
  refine ⟨?_, ?_, ?_, ?_⟩
  · simp [parent_dir, scriptDir]
  · simp [parent_dir, scriptDir]
  · simp [parent_dir, scriptDir]
  · intro path h1 h2 h3
    rw [if_neg h3, if_neg h2, if_neg h1]

/-- C5 witness: a 200 body with the three fields "PRIV", "PUB", "CERT"
writes exactly those contents to the three paths with three confirmations. -/
theorem cert_writes_three_files_witness :
    writesOf (runCmd .cert ⟨fun _ => (0 : Fin 52), "",
      ⟨200, "", .obj [("private", .str "PRIV"), ("public", .str "PUB"),
        ("cert", .str "CERT")]⟩⟩).effects =
      [(parent_dir "server.key", .str "PRIV"), (parent_dir "server.pub", .str "PUB"),
       (parent_dir "server.crt", .str "CERT")] ∧
    printsOf (runCmd .cert ⟨fun _ => (0 : Fin 52), "",
      ⟨200, "", .obj [("private", .str "PRIV"), ("public", .str "PUB"),
        ("cert", .str "CERT")]⟩⟩).effects =
      [[.str "Wrote server.key"], [.str "Wrote server.pub"], [.str "Wrote server.crt"]] ∧
    (runCmd .cert ⟨fun _ => (0 : Fin 52), "",
      ⟨200, "", .obj [("private", .str "PRIV"), ("public", .str "PUB"),
        ("cert", .str "CERT")]⟩⟩).exc = none :=
  ⟨(cert_writes_three_files ⟨fun _ => (0 : Fin 52), "",
      ⟨200, "", .obj [("private", .str "PRIV"), ("public", .str "PUB"),
        ("cert", .str "CERT")]⟩⟩ rfl (.str "PRIV") (.str "PUB") (.str "CERT") rfl rfl rfl).1,
   (cert_writes_three_files ⟨fun _ => (0 : Fin 52), "",
      ⟨200, "", .obj [("private", .str "PRIV"), ("public", .str "PUB"),
        ("cert", .str "CERT")]⟩⟩ rfl (.str "PRIV") (.str "PUB") (.str "CERT") rfl rfl rfl).2.1,
   (cert_writes_three_files ⟨fun _ => (0 : Fin 52), "",
      ⟨200, "", .obj [("private", .str "PRIV"), ("public", .str "PUB"),
        ("cert", .str "CERT")]⟩⟩ rfl (.str "PRIV") (.str "PUB") (.str "CERT") rfl rfl rfl).2.2.1⟩

/-- C6: on a 200 response to `listusers` whose body is a JSON sequence, the
full effect trace is the single GET request followed by one print per
element, carrying the elements verbatim in sequence order; no exception, no
further request. -/
theorem listusers_prints_each (env : Env) (xs : List Json)
    (h : env.resp.status = 200) (hj : env.resp.json = .arr xs) :
    (runCmd .listusers env).effects =
      Effect.request .GET (SERVER ++ "/users") HEADERS none ::
        xs.map (fun p => Effect.print [p]) ∧
    printsOf (runCmd .listusers env).effects = xs.map (fun p => [p]) ∧
    (requestLines (runCmd .listusers env).effects).length = 1 ∧
    (runCmd .listusers env).exc = none := by
  have he : (runCmd .listusers env).effects =
      Effect.request .GET (SERVER ++ "/users") HEADERS none ::
        xs.map (fun p => Effect.print [p]) := by
    simp only [runCmd, listusers]
    rw [if_pos h, hj]
    simp [pyIterate]
  have hx : (runCmd .listusers env).exc = none := by
    simp only [runCmd, listusers]
    rw [if_pos h, hj]
    simp [pyIterate]
  refine ⟨he, ?_, ?_, hx⟩
  · rw [he]
    simpa [printsOf] using printsOf_map_print xs
  · rw [he]
    have hz := requestLines_map_print xs
    simp only [requestLines] at hz ⊢
    simp [List.filterMap_cons, hz]

/-- C6 witness: a 200 body `[{"name":"Ada","score":5}]` yields exactly the
GET request plus one print of that single record. -/
theorem listusers_prints_each_witness :
    (runCmd .listusers ⟨fun _ => (0 : Fin 52), "",
      ⟨200, "", .arr [.obj [("name", .str "Ada"), ("score", .num 5)]]⟩⟩).effects =
      [Effect.request .GET (SERVER ++ "/users") HEADERS none,
       Effect.print [.obj [("name", .str "Ada"), ("score", .num 5)]]] ∧
    printsOf (runCmd .listusers ⟨fun _ => (0 : Fin 52), "",
      ⟨200, "", .arr [.obj [("name", .str "Ada"), ("score", .num 5)]]⟩⟩).effects =
      [[.obj [("name", .str "Ada"), ("score", .num 5)]]] ∧
    (requestLines (runCmd .listusers ⟨fun _ => (0 : Fin 52), "",
      ⟨200, "", .arr [.obj [("name", .str "Ada"), ("score", .num 5)]]⟩⟩).effects).length = 1 :=
  ⟨(listusers_prints_each _ [.obj [("name", .str "Ada"), ("score", .num 5)]] rfl rfl).1,
   (listusers_prints_each _ [.obj [("name", .str "Ada"), ("score", .num 5)]] rfl rfl).2.1,
   (listusers_prints_each _ [.obj [("name", .str "Ada"), ("score", .num 5)]] rfl rfl).2.2.1⟩

/-- C7: the request body sent by `adduser` is exactly the JSON object with
the fields token and server_token (the two generated 4-character strings,
from draws 0..3 and 4..7 respectively), name (the interactively read line),
score 0, titles [], and loot [] — and it is the only request sent. -/
theorem adduser_request_payload (env : Env) :
    requestsOf (runCmd .adduser env).effects =
      [Effect.request .POST (SERVER ++ "/user") HEADERS (some (Json.obj
        [("token", .str (genToken env.rand 0)),
         ("server_token", .str (genToken env.rand 4)),
         ("name", .str env.nameInput),
         ("score", .num 0),
         ("titles", .arr []),
         ("loot", .arr [])]))] ∧
    (genToken env.rand 0).length = 4 ∧ (genToken env.rand 4).length = 4 := by
  refine ⟨?_, by simp [genToken], by simp [genToken]⟩
  simp only [runCmd, adduser]
  split
  · split <;> simp [requestsOf]
  · simp [requestsOf]

/-- C7 witness: at the constant draw stream and name "Ada", the single
request carries exactly the literal payload with both tokens "aaaa". -/
theorem adduser_request_payload_witness :
    requestsOf (runCmd .adduser ⟨fun _ => (0 : Fin 52), "Ada", ⟨200, "", .obj []⟩⟩).effects =
      [Effect.request .POST (SERVER ++ "/user") HEADERS (some (Json.obj
        [("token", .str "aaaa"), ("server_token", .str "aaaa"), ("name", .str "Ada"),
         ("score", .num 0), ("titles", .arr []), ("loot", .arr [])]))] :=
  (adduser_request_payload ⟨fun _ => (0 : Fin 52), "Ada", ⟨200, "", .obj []⟩⟩).1

/-- C8: an argument that is not one of the seven recognized command names
makes the program exit with the argument parser status 2 (nonzero) before
dispatch, performing no effect at all — in particular no network call. -/
theorem unrecognized_cmd_rejected (arg : String) (env : Env)
    (h : arg ∉ cmds.map Prod.fst) :
    (main arg env).1 = 2 ∧ (main arg env).1 ≠ 0 ∧
    (main arg env).2.effects = [] ∧ requestLines (main arg env).2.effects = [] := by
  have hfind : cmds.find? (fun p => p.1 = arg) = none := by
    rw [List.find?_eq_none]
    intro x hx
    simp only [decide_eq_true_eq]
    intro hxe
    exact h (hxe ▸ List.mem_map_of_mem Prod.fst hx)
  simp [main, parseArgs, hfind, requestLines]

/-- C8 witness: the argument "foo" is rejected with exit status 2 and no
effects. -/
theorem unrecognized_cmd_rejected_witness :
    (main "foo" ⟨fun _ => (0 : Fin 52), "", ⟨200, "", .obj []⟩⟩).1 = 2 ∧
    (main "foo" ⟨fun _ => (0 : Fin 52), "", ⟨200, "", .obj []⟩⟩).1 ≠ 0 ∧
    (main "foo" ⟨fun _ => (0 : Fin 52), "", ⟨200, "", .obj []⟩⟩).2.effects = [] ∧
    requestLines (main "foo" ⟨fun _ => (0 : Fin 52), "", ⟨200, "", .obj []⟩⟩).2.effects = [] :=
  unrecognized_cmd_rejected "foo" ⟨fun _ => (0 : Fin 52), "", ⟨200, "", .obj []⟩⟩ (by decide)

/-- C9: on a 200 response to `cert` missing any of the keys private, public,
cert, the command raises (KeyError) before any file is opened: no write
effect, no print, and any file system is left pointwise unchanged. -/
theorem cert_missing_field_no_write (env : Env) (h : env.resp.status = 200)
    (hmiss : getKey env.resp.json "private" = none ∨
      getKey env.resp.json "public" = none ∨ getKey env.resp.json "cert" = none) :
    (runCmd .cert env).exc.isSome = true ∧
    writesOf (runCmd .cert env).effects = [] ∧
    printsOf (runCmd .cert env).effects = [] ∧
    (∀ fs path, applyEffects (runCmd .cert env).effects fs path = fs path) := by
  simp only [runCmd, cert]
  rw [if_pos h]
  rcases hp : getKey env.resp.json "private" with _ | p
  · simp [writesOf, printsOf, applyEffects, applyEffect]
  · rcases hq : getKey env.resp.json "public" with _ | q
    · simp [writesOf, printsOf, applyEffects, applyEffect]
    · rcases hr : getKey env.resp.json "cert" with _ | r
      · simp [writesOf, printsOf, applyEffects, applyEffect]
      · exfalso
        rcases hmiss with hm | hm | hm
        · rw [hp] at hm; exact Option.noConfusion hm
        · rw [hq] at hm; exact Option.noConfusion hm
        · rw [hr] at hm; exact Option.noConfusion hm

/-- C9 witness: a 200 response with body `{}` raises with no writes and no
prints. -/
theorem cert_missing_field_no_write_witness :
    (runCmd .cert ⟨fun _ => (0 : Fin 52), "", ⟨200, "", .obj []⟩⟩).exc.isSome = true ∧
    writesOf (runCmd .cert ⟨fun _ => (0 : Fin 52), "", ⟨200, "", .obj []⟩⟩).effects = [] ∧
    printsOf (runCmd .cert ⟨fun _ => (0 : Fin 52), "", ⟨200, "", .obj []⟩⟩).effects = [] :=
  ⟨(cert_missing_field_no_write ⟨fun _ => (0 : Fin 52), "", ⟨200, "", .obj []⟩⟩ rfl
      (Or.inl rfl)).1,
   (cert_missing_field_no_write ⟨fun _ => (0 : Fin 52), "", ⟨200, "", .obj []⟩⟩ rfl
      (Or.inl rfl)).2.1,
   (cert_missing_field_no_write ⟨fun _ => (0 : Fin 52), "", ⟨200, "", .obj []⟩⟩ rfl
      (Or.inl rfl)).2.2.1⟩

/-- C10: on a 200 response to `listusers` whose body is the empty sequence,
the command prints nothing: the trace is exactly the single GET request. -/
theorem listusers_empty_prints_nothing (env : Env) (h : env.resp.status = 200)
    (hj : env.resp.json = .arr []) :
    printsOf (runCmd .listusers env).effects = [] ∧
    (runCmd .listusers env).effects =
      [Effect.request .GET (SERVER ++ "/users") HEADERS none] ∧
    (runCmd .listusers env).exc = none := by
  simp only [runCmd, listusers]
  rw [if_pos h, hj]
  simp [pyIterate, printsOf]

/-- C10 witness: a 200 response with body `[]` produces no print at all. -/
theorem listusers_empty_prints_nothing_witness :
    printsOf (runCmd .listusers ⟨fun _ => (0 : Fin 52), "", ⟨200, "", .arr []⟩⟩).effects = [] ∧
    (runCmd .listusers ⟨fun _ => (0 : Fin 52), "", ⟨200, "", .arr []⟩⟩).effects =
      [Effect.request .GET (SERVER ++ "/users") HEADERS none] ∧
    (runCmd .listusers ⟨fun _ => (0 : Fin 52), "", ⟨200, "", .arr []⟩⟩).exc = none :=
  listusers_empty_prints_nothing ⟨fun _ => (0 : Fin 52), "", ⟨200, "", .arr []⟩⟩ rfl rfl

end KodeCLI
